import Mathlib

/-! Shallow embedding of the chat backend in src/backend/main.py.

The backend orchestrates three external collaborators: the identity
service (supabase.auth.get_user), the relational store (supabase.table
queries) and the generative model (genai).  Each route is embedded as a
pure Lean function taking the request data together with the outcomes of
the collaborator calls it performs; a collaborator call that raises a
Python exception is modelled as Except.error.  Every route function also
returns the list of collaborator calls it performed, so that statements
about which external calls happen on a given request are expressible.

Python conventions mirrored in the embedding:
  - optional attributes and dictionary keys are Option values, with none
    standing for an absent key or an attribute whose value is None;
  - Python truthiness of a string: the empty string and None are falsy;
  - x or y returns x when x is truthy, otherwise y;
  - f-string interpolation of None prints the text None. -/

deriving instance DecidableEq for Except

namespace ChatService

/-! Executable embeddings of the Python string methods used by the
backend, written by structural recursion over the character list so that
concrete instances evaluate. -/

/-- Python str.lower, with the ASCII case mapping. -/
def pyLower (s : String) : String := ⟨s.data.map Char.toLower⟩

/-- Python str.upper, with the ASCII case mapping. -/
def pyUpper (s : String) : String := ⟨s.data.map Char.toUpper⟩

/-- Whether the first character list is an initial segment of the
second. -/
def charsLeading : List Char → List Char → Bool
  | [], _ => true
  | _ :: _, [] => false
  | a :: as, b :: bs => decide (a = b) && charsLeading as bs

/-- Python str.startswith. -/
def pyStartsWith (s p : String) : Bool := charsLeading p.data s.data

/-- Python str.strip with no argument: remove leading and trailing
whitespace. -/
def pyStrip (s : String) : String :=
  ⟨List.reverse (List.dropWhile Char.isWhitespace
    (List.reverse (List.dropWhile Char.isWhitespace s.data)))⟩

/-- Python newline.join over a list of parts. -/
def joinNewline : List String → String
  | [] => ""
  | [p] => p
  | p :: q :: rest => p ++ "\n" ++ joinNewline (q :: rest)

/-- An HTTP error response, as produced by raising HTTPException. -/
structure HTTPError where
  status : Nat
  detail : String
deriving DecidableEq

/-- One call made to an external collaborator during a request. -/
inductive Call where
  | authGetUser
  | selectConversation (conversation_id : String)
  | selectMessages (conversation_id : String)
  | insertConversation (user_id : String) (title : String)
  | insertMessages (conversation_id : String) (user_id : String)
      (user_content : String) (assistant_content : String)
  | generate (prompt : String)
deriving DecidableEq

/-- Whether a call is a read of the conversations table for a single row,
as the history route performs before its ownership check. -/
def Call.isSelectConversation : Call → Bool
  | .selectConversation _ => true
  | _ => false

/-! Token validator (main.py lines 51-90, get_user_id). -/

/-- A user representation returned by the identity collaborator: either a
mapping with an optional id key (only the id key is modelled, so a mapping
with id absent stands for the empty mapping), or an object with an
optional id attribute. -/
inductive UserRep where
  | dict (id : Option String)
  | obj (id : Option String)
deriving DecidableEq

/-- Python truthiness of a user representation: an empty mapping is
falsy, a plain object is truthy. -/
def UserRep.truthy : UserRep → Bool
  | .dict id => id.isSome
  | .obj _ => true

/-- Extraction of the id field, mirroring user_obj.get with a mapping and
getattr with default None with an object (main.py lines 78-81). -/
def UserRep.getId : UserRep → Option String
  | .dict id => id
  | .obj id => id

/-- The data entry of a mapping-shaped identity response: absent (so that
resp.get with default yields an empty mapping), a mapping with an
optional user key, or a non-mapping value on which .get raises. -/
inductive DataVal where
  | absent
  | dictOf (user : Option UserRep)
  | nonDict
deriving DecidableEq

/-- The identity collaborator response: an object exposing a user
attribute (none when that attribute is None), an object without a user
attribute, or a mapping with optional data and user keys. -/
inductive AuthResp where
  | objWithUser (user : Option UserRep)
  | objNoUser
  | dictResp (data : DataVal) (user : Option UserRep)
deriving DecidableEq

/-- Python x or y on two optional user representations: the left value
when it is present and truthy, otherwise the right value. -/
def pyOrRep (a b : Option UserRep) : Option UserRep :=
  match a with
  | some u => if u.truthy then some u else b
  | none => b

/-- The user_obj value computed from the identity response (main.py
lines 66-72): object attribute access is tried first, then the two
mapping access paths; an error models the AttributeError raised by .get
on a non-mapping data entry. -/
def resolveUser : AuthResp → Except Unit (Option UserRep)
  | .objWithUser (some u) => .ok (if u.truthy then some u else none)
  | .objWithUser none => .ok none
  | .objNoUser => .ok none
  | .dictResp data user =>
    match data with
    | .absent => .ok (pyOrRep none user)
    | .dictOf du => .ok (pyOrRep du user)
    | .nonDict => .error ()

/-- The bearer-header guard (main.py line 56): the header must be
present, non-empty, and start case-insensitively with the bearer
scheme keyword and a space. -/
def header_ok (authorization : Option String) : Bool :=
  match authorization with
  | none => false
  | some s => decide (s ≠ "") && pyStartsWith (pyLower s) ("bearer ")

/-- The collaborator calls performed by get_user_id itself: the identity
lookup happens only once the header guard has passed. -/
def get_user_id_calls (authorization : Option String) : List Call :=
  if header_ok authorization = false then [] else [Call.authGetUser]

/-- The auth dependency get_user_id (main.py lines 51-90): reject the
request when the header guard fails, otherwise resolve the identity
collaborator outcome to a user id, normalizing every failure (exception,
missing or falsy user object, missing or falsy id) to 401 Invalid token. -/
def get_user_id (authorization : Option String) (call : Except Unit AuthResp) :
    Except HTTPError String :=
  if header_ok authorization = false then
    .error ⟨401, "Missing bearer token"⟩
  else
    match call with
    | .error _ => .error ⟨401, "Invalid token"⟩
    | .ok resp =>
      match resolveUser resp with
      | .error _ => .error ⟨401, "Invalid token"⟩
      | .ok none => .error ⟨401, "Invalid token"⟩
      | .ok (some u) =>
        if u.truthy = false then .error ⟨401, "Invalid token"⟩
        else
          match u.getId with
          | none => .error ⟨401, "Invalid token"⟩
          | some uid => if uid = "" then .error ⟨401, "Invalid token"⟩ else .ok uid

/-! Prompt assembly (main.py lines 146-156, inside chat). -/

/-- A history record handed to the prompt loop: a mapping with optional
role and content keys, or an object with optional role and content
attributes (none stands for an absent key or attribute). -/
inductive MsgRecord where
  | dict (role : Option String) (content : Option String)
  | obj (role : Option String) (content : Option String)
deriving DecidableEq

/-- Role extraction (main.py line 152): h.get on a mapping yields None
when the key is absent, getattr on an object defaults to the empty
string. -/
def msgRole : MsgRecord → Option String
  | .dict r _ => r
  | .obj r _ => some (r.getD (""))

/-- Content extraction (main.py line 153), with the same two access
paths and defaults as the role. -/
def msgContent : MsgRecord → Option String
  | .dict _ c => c
  | .obj _ c => some (c.getD (""))

/-- Python f-string interpolation of an optional string: None prints as
the text None. -/
def pyStr : Option String → String
  | none => "None"
  | some s => s

/-- One iteration of the prompt loop (main.py line 154): upper-case the
role and join it with the content.  When the extracted role is None, the
call role.upper() raises AttributeError, modelled as an error. -/
def renderLine (h : MsgRecord) : Except Unit String :=
  match msgRole h with
  | none => .error ()
  | some role => .ok (pyUpper role ++ (": ") ++ pyStr (msgContent h))

/-- The rendered line of a record whose role extraction succeeds. -/
def renderTotal (h : MsgRecord) : String :=
  pyUpper ((msgRole h).getD ("")) ++ (": ") ++ pyStr (msgContent h)

/-- Whether every record in a history list exposes a role through its
access path, so that the prompt loop completes without raising. -/
def rolesPresent (l : List MsgRecord) : Bool :=
  l.all (fun r => (msgRole r).isSome)

/-- The prompt loop over a record list, aborting at the first record
whose rendering raises. -/
def renderAll : List MsgRecord → Except Unit (List String)
  | [] => .ok []
  | h :: t =>
    match renderLine h with
    | .error e => .error e
    | .ok line =>
      match renderAll t with
      | .error e => .error e
      | .ok rest => .ok (line :: rest)

/-- The parts list of the prompt (main.py lines 149-155): the rendered
last 8 history records followed by the final USER line.  The slice
history[-8:] is the drop of all but the last 8 elements. -/
def build_parts (history : List MsgRecord) (user_msg : String) :
    Except Unit (List String) :=
  match renderAll (history.drop (history.length - 8)) with
  | .error e => .error e
  | .ok lines => .ok (lines ++ ["USER: " ++ user_msg])

/-- The assembled prompt (main.py line 156): the parts joined with
newlines; the new message is stripped of surrounding whitespace first
(main.py line 146). -/
def chatPrompt (history : List MsgRecord) (message : String) : Except Unit String :=
  match build_parts history (pyStrip message) with
  | .error e => .error e
  | .ok parts => .ok (joinNewline parts)

/-! Reply extraction and the chat route (main.py lines 133-190). -/

/-- The value returned by the generative model collaborator: optional
text and content attributes (none when the attribute is absent or None)
and its generic string conversion. -/
structure GenResult where
  text : Option String
  content : Option String
  str : String
deriving DecidableEq

/-- Python x or y on optional strings: the left value when present and
non-empty, otherwise the right value. -/
def pyOrStrOpt (a b : Option String) : Option String :=
  match a with
  | none => b
  | some s => if s = "" then b else some s

/-- Reply extraction (main.py line 165): getattr text or getattr content
or str of the result, with Python or reading falsy values as absent. -/
def extractReply (r : GenResult) : String :=
  match pyOrStrOpt r.text r.content with
  | none => r.str
  | some s => if s = "" then r.str else s

/-- Modelled from the spec: extracts the reply text via, in order, a
text field if present, else a content field if present, else the generic
string conversion of the raw response.  Stated for comparison with
extractReply, which follows the code. -/
def extractReplySpec (r : GenResult) : String :=
  match r.text with
  | some t => t
  | none =>
    match r.content with
    | some c => c
    | none => r.str

/-- The fixed fallback reply (main.py line 159). -/
def fallbackReply : String := "Sorry, I couldn\x27t generate a response right now."

/-- The reply text after the guarded model call (main.py lines 158-168):
the extracted text when the collaborator returns, the fixed fallback when
it raises. -/
def computeReply (gen : Except Unit GenResult) : String :=
  match gen with
  | .error _ => fallbackReply
  | .ok r => extractReply r

/-- The observable outcome of one chat request: the HTTP response (ok is
a 200 with the reply), the collaborator calls performed, and whether the
two messages were persisted. -/
structure ChatRun where
  resp : Except HTTPError String
  calls : List Call
  persisted : Bool
deriving DecidableEq

/-- The chat route (main.py lines 133-190): authenticate, fetch recent
history for the given conversation id, assemble the prompt (an exception
here escapes as a 500), compute the reply with the model fallback, then
attempt to persist the user and assistant messages, swallowing any
persistence exception before returning the reply. -/
def chat (conversation_id : String) (message : String)
    (authorization : Option String) (authCall : Except Unit AuthResp)
    (histData : Option (List MsgRecord)) (gen : Except Unit GenResult)
    (ins : Except Unit Unit) : ChatRun :=
  match get_user_id authorization authCall with
  | .error e => ⟨.error e, get_user_id_calls authorization, false⟩
  | .ok user_id =>
    let hist := histData.getD []
    let user_msg := pyStrip message
    match chatPrompt hist message with
    | .error _ =>
      ⟨.error ⟨500, "Internal Server Error"⟩,
        [Call.authGetUser, Call.selectMessages conversation_id], false⟩
    | .ok prompt =>
      let reply_text := computeReply gen
      ⟨.ok reply_text,
        [Call.authGetUser, Call.selectMessages conversation_id,
          Call.generate prompt,
          Call.insertMessages conversation_id user_id user_msg reply_text],
        match ins with | .ok _ => true | .error _ => false⟩

/-! History route (main.py lines 116-131). -/

/-- The data attribute of the single-row conversations query: absent or
None, a mapping (only its user_id key is modelled, so a mapping with
user_id absent stands for the empty, falsy mapping), or a non-mapping
record object carrying a user_id attribute. -/
inductive ConvData where
  | null
  | dict (user_id : Option String)
  | obj (user_id : Option String)
deriving DecidableEq

/-- Python truthiness of the conversation data: None is falsy, a mapping
is falsy exactly when empty, an object is truthy. -/
def ConvData.truthy : ConvData → Bool
  | .null => false
  | .dict uid => uid.isSome
  | .obj _ => true

/-- The guard of the history route (main.py line 121): the request is
rejected when the data is falsy, or when it is a mapping whose user_id
differs from the authenticated user.  A non-mapping object is never
compared. -/
def convCheckFails (conv : ConvData) (user_id : String) : Bool :=
  !conv.truthy ||
    (match conv with
     | .dict uid => decide (uid ≠ some user_id)
     | _ => false)

/-- The observable outcome of one history request. -/
structure HistoryRun where
  resp : Except HTTPError (List MsgRecord)
  calls : List Call
deriving DecidableEq

/-- The history route (main.py lines 116-131): authenticate, fetch the
conversation row, 404 when the guard rejects it, otherwise fetch and
return the ordered messages (a missing data attribute normalizes to the
empty list). -/
def history (conversation_id : String) (authorization : Option String)
    (authCall : Except Unit AuthResp) (conv : ConvData)
    (msgs : Option (List MsgRecord)) : HistoryRun :=
  match get_user_id authorization authCall with
  | .error e => ⟨.error e, get_user_id_calls authorization⟩
  | .ok user_id =>
    if convCheckFails conv user_id then
      ⟨.error ⟨404, "Conversation not found"⟩,
        [Call.authGetUser, Call.selectConversation conversation_id]⟩
    else
      ⟨.ok (msgs.getD []),
        [Call.authGetUser, Call.selectConversation conversation_id,
          Call.selectMessages conversation_id]⟩

/-! Start-conversation route (main.py lines 97-114). -/

/-- The data attribute of the insert response: absent or None, a list of
rows each modelled by its optional id value, or a single-record mapping
modelled by its optional id value (id absent stands for a mapping that
is falsy or lacks the id key; either way no id can be extracted). -/
inductive InsertConvData where
  | null
  | list (ids : List (Option String))
  | dict (id : Option String)
deriving DecidableEq

/-- The observable outcome of one start-conversation request. -/
structure StartRun where
  resp : Except HTTPError String
  calls : List Call
deriving DecidableEq

/-- The start-conversation route (main.py lines 97-114): authenticate,
insert a conversation row with the given title defaulting to New
Conversation, then read the created id back from a populated list or a
mapping; a missing or falsy id is a 500. -/
def start_conversation (title : Option String) (authorization : Option String)
    (authCall : Except Unit AuthResp) (conv : InsertConvData) : StartRun :=
  match get_user_id authorization authCall with
  | .error e => ⟨.error e, get_user_id_calls authorization⟩
  | .ok user_id =>
    let title' : String :=
      match title with
      | some t => if t = "" then "New Conversation" else t
      | none => "New Conversation"
    let calls := [Call.authGetUser, Call.insertConversation user_id title']
    let conv_id : Option String :=
      match conv with
      | .list (r :: _) => r
      | .list [] => none
      | .null => none
      | .dict none => none
      | .dict (some id) => some id
    match conv_id with
    | none => ⟨.error ⟨500, "Failed to create conversation"⟩, calls⟩
    | some id =>
      if id = "" then ⟨.error ⟨500, "Failed to create conversation"⟩, calls⟩
      else ⟨.ok id, calls⟩

/-! Helper lemmas shared by the claim theorems. -/

/-- A record whose role extraction succeeds renders to its total
rendering. -/
lemma renderLine_ok_of_role (h : MsgRecord) (hr : (msgRole h).isSome = true) :
    renderLine h = .ok (renderTotal h) := by
  cases hmr : msgRole h with
  | none => rw [hmr] at hr; simp at hr
  | some role => simp [renderLine, renderTotal, hmr]

/-- The prompt loop completes on a list whose records all expose a
role. -/
lemma renderAll_ok (l : List MsgRecord) (hl : rolesPresent l = true) :
    renderAll l = .ok (l.map renderTotal) := by
  induction l with
  | nil => rfl
  | cons h t ih =>
    simp only [rolesPresent, List.all_cons, Bool.and_eq_true] at hl
    simp only [renderAll, renderLine_ok_of_role h hl.1, ih hl.2, List.map_cons]

/-- Dropping records preserves the roles-present invariant. -/
lemma rolesPresent_drop (l : List MsgRecord) (n : Nat)
    (hl : rolesPresent l = true) : rolesPresent (l.drop n) = true := by
  rw [rolesPresent, List.all_eq_true] at hl ⊢
  intro x hx
  exact hl x (List.mem_of_mem_drop hx)

/-- The parts list on a well-formed history: the rendered last 8 records
followed by the final USER line. -/
lemma build_parts_ok (l : List MsgRecord) (m : String)
    (hl : rolesPresent l = true) :
    build_parts l m =
      .ok ((l.drop (l.length - 8)).map renderTotal ++ ["USER: " ++ m]) := by
  simp only [build_parts, renderAll_ok _ (rolesPresent_drop l _ hl)]

/-- The assembled prompt on a well-formed history. -/
lemma chatPrompt_ok (l : List MsgRecord) (m : String)
    (hl : rolesPresent l = true) :
    chatPrompt l m =
      .ok (joinNewline ((l.drop (l.length - 8)).map renderTotal ++
        ["USER: " ++ pyStrip m])) := by
  simp only [chatPrompt, build_parts_ok l (pyStrip m) hl]

/-- The full outcome of a chat request once authentication and prompt
assembly succeed. -/
lemma chat_run_eq (conversation_id message : String)
    (authorization : Option String) (ac : Except Unit AuthResp)
    (hd : Option (List MsgRecord)) (gen : Except Unit GenResult)
    (ins : Except Unit Unit) (uid p : String)
    (hok : get_user_id authorization ac = .ok uid)
    (hpr : chatPrompt (hd.getD []) message = .ok p) :
    chat conversation_id message authorization ac hd gen ins =
      ⟨.ok (computeReply gen),
        [Call.authGetUser, Call.selectMessages conversation_id,
          Call.generate p,
          Call.insertMessages conversation_id uid (pyStrip message)
            (computeReply gen)],
        match ins with | .ok _ => true | .error _ => false⟩ := by
  simp only [chat, hok, hpr]

/-- Once the header guard has passed, token validation either returns a
user id or fails with exactly 401 Invalid token. -/
lemma get_user_id_error_detail (authorization : Option String)
    (ac : Except Unit AuthResp) (hok : header_ok authorization = true) :
    (∃ uid, get_user_id authorization ac = .ok uid) ∨
      get_user_id authorization ac = .error ⟨401, "Invalid token"⟩ := by
  cases ac with
  | error u => right; simp [get_user_id, hok]
  | ok resp =>
    cases hres : resolveUser resp with
    | error u => right; simp [get_user_id, hok, hres]
    | ok uo =>
      cases uo with
      | none => right; simp [get_user_id, hok, hres]
      | some u =>
        cases htr : u.truthy with
        | false => right; simp [get_user_id, hok, hres, htr]
        | true =>
          cases hid : u.getId with
          | none => right; simp [get_user_id, hok, hres, htr, hid]
          | some uid =>
            by_cases hu : uid = ""
            · right; simp [get_user_id, hok, hres, htr, hid, hu]
            · left; exact ⟨uid, by simp [get_user_id, hok, hres, htr, hid, hu]⟩

/-! Claim theorems. -/

/-- C1 counterexample: with an object-shaped (non-mapping) conversation
row whose user_id is alice, a history request authenticated as bob is
answered with the messages, not with 404, because the ownership
comparison in the route only runs on mapping-shaped rows. -/
theorem history_object_shape_counterexample :
    (history ("c1") (some ("Bearer t"))
      (.ok (AuthResp.objWithUser (some (UserRep.obj (some ("bob"))))))
      (ConvData.obj (some ("alice"))) (some [])).resp = .ok [] ∧
    (history ("c1") (some ("Bearer t"))
      (.ok (AuthResp.objWithUser (some (UserRep.obj (some ("bob"))))))
      (ConvData.obj (some ("alice"))) (some [])).resp ≠
      .error ⟨404, "Conversation not found"⟩ := by
  exact ⟨by decide, by decide⟩

/-- C1 amended: when the fetched conversation data is a mapping whose
user_id differs from the authenticated user, the history route returns
404 Conversation not found; for an object-shaped row the advisory
ownership check is skipped. -/
theorem history_mapping_owner_mismatch_404 (conversation_id : String)
    (authorization : Option String) (ac : Except Unit AuthResp)
    (duid : Option String) (msgs : Option (List MsgRecord)) (uid : String)
    (hok : get_user_id authorization ac = .ok uid) (hne : duid ≠ some uid) :
    (history conversation_id authorization ac (ConvData.dict duid) msgs).resp =
      .error ⟨404, "Conversation not found"⟩ := by
  simp [history, hok, convCheckFails, hne]

theorem history_mapping_owner_mismatch_404_witness :
    get_user_id (some ("Bearer t"))
      (.ok (AuthResp.objWithUser (some (UserRep.obj (some ("bob")))))) =
      .ok ("bob") ∧
    (some ("alice") : Option String) ≠ some ("bob") ∧
    (history ("c2") (some ("Bearer t"))
      (.ok (AuthResp.objWithUser (some (UserRep.obj (some ("bob"))))))
      (ConvData.dict (some ("alice"))) none).resp =
      .error ⟨404, "Conversation not found"⟩ :=
  ⟨by decide, by decide,
    history_mapping_owner_mismatch_404 ("c2") (some ("Bearer t"))
      (.ok (AuthResp.objWithUser (some (UserRep.obj (some ("bob"))))))
      (some ("alice")) none ("bob") (by decide) (by decide)⟩

/-- C2 counterexample: a mapping-shaped history record without a role
key makes the prompt assembler raise (None has no upper method), and a
mapping-shaped record without a content key renders the text None, not
the empty string. -/
theorem render_missing_role_counterexample :
    renderLine (MsgRecord.dict none (some ("hi"))) = .error () ∧
    chatPrompt [MsgRecord.dict none (some ("hi"))] ("yo") = .error () ∧
    renderLine (MsgRecord.dict (some ("user")) none) = .ok ("USER: None") := by
  exact ⟨by decide, by decide, by decide⟩

/-- C2 amended: an object-shaped record reads role and content through
getattr with an empty-string default and always yields a line; a
mapping-shaped record yields a line when its role key is present (an
absent content key rendering as the text None), and raises when the role
key is absent. -/
theorem render_defaults_by_shape (r c : Option String) :
    (renderLine (MsgRecord.obj r c) =
      .ok (pyUpper (r.getD ("")) ++ (": ") ++ c.getD (""))) ∧
    (∀ role, renderLine (MsgRecord.dict (some role) c) =
      .ok (pyUpper role ++ (": ") ++ pyStr c)) ∧
    (renderLine (MsgRecord.dict none c) = .error ()) := by
  refine ⟨?_, ?_, ?_⟩ <;> simp [renderLine, msgRole, msgContent, pyStr]

/-- C3 counterexample: a model result whose text field is present but
empty is not answered with that text; the extraction falls through to
the content field, because the code tests truthiness, not presence. -/
theorem extract_reply_empty_text_counterexample :
    extractReply ⟨some (""), some ("hi there"), ("raw response")⟩ =
      ("hi there") ∧
    extractReplySpec ⟨some (""), some ("hi there"), ("raw response")⟩ =
      ("") ∧
    (("hi there") : String) ≠ ("") := by
  exact ⟨by decide, by decide, by decide⟩

/-- C3 amended: the reply is the text field when present and non-empty,
else the content field when present and non-empty, else the generic
string conversion of the raw response. -/
theorem extract_reply_truthiness_order :
    (∀ t c s, t ≠ ("") → extractReply ⟨some t, c, s⟩ = t) ∧
    (∀ c s, c ≠ ("") → extractReply ⟨none, some c, s⟩ = c ∧
      extractReply ⟨some (""), some c, s⟩ = c) ∧
    (∀ s, extractReply ⟨none, none, s⟩ = s ∧
      extractReply ⟨some (""), none, s⟩ = s ∧
      extractReply ⟨none, some (""), s⟩ = s ∧
      extractReply ⟨some (""), some (""), s⟩ = s) := by
  refine ⟨?_, ?_, ?_⟩
  · intro t c s ht; simp [extractReply, pyOrStrOpt, ht]
  · intro c s hc
    exact ⟨by simp [extractReply, pyOrStrOpt, hc], by simp [extractReply, pyOrStrOpt, hc]⟩
  · intro s
    refine ⟨?_, ?_, ?_, ?_⟩ <;> simp [extractReply, pyOrStrOpt]

theorem extract_reply_truthiness_order_witness :
    (("hi") : String) ≠ ("") ∧
    extractReply ⟨some ("hi"), none, ("raw")⟩ = ("hi") :=
  ⟨by decide, extract_reply_truthiness_order.1 ("hi") none ("raw") (by decide)⟩

/-- C4: when the model collaborator raises, the chat route still
answers with HTTP 200 and the reply is exactly the fixed fallback
string; the exception is not re-raised. -/
theorem chat_model_exception_fallback (conversation_id message : String)
    (authorization : Option String) (ac : Except Unit AuthResp)
    (hd : Option (List MsgRecord)) (ins : Except Unit Unit) (uid : String)
    (hok : get_user_id authorization ac = .ok uid)
    (hp : rolesPresent (hd.getD []) = true) :
    (chat conversation_id message authorization ac hd (.error ()) ins).resp =
      .ok ("Sorry, I couldn\x27t generate a response right now.") := by
  rw [chat_run_eq conversation_id message authorization ac hd (.error ())
    ins uid _ hok (chatPrompt_ok _ message hp)]
  rfl

theorem chat_model_exception_fallback_witness :
    get_user_id (some ("Bearer t"))
      (.ok (AuthResp.objWithUser (some (UserRep.obj (some ("bob")))))) =
      .ok ("bob") ∧
    rolesPresent ((some [] : Option (List MsgRecord)).getD []) = true ∧
    (chat ("c1") ("hello") (some ("Bearer t"))
      (.ok (AuthResp.objWithUser (some (UserRep.obj (some ("bob"))))))
      (some []) (.error ()) (.ok ())).resp =
      .ok ("Sorry, I couldn\x27t generate a response right now.") :=
  ⟨by decide, by decide,
    chat_model_exception_fallback ("c1") ("hello") (some ("Bearer t"))
      (.ok (AuthResp.objWithUser (some (UserRep.obj (some ("bob"))))))
      (some []) (.ok ()) ("bob") (by decide) (by decide)⟩

/-- C5: when the post-reply persistence call raises, the exception is
swallowed and the chat route still answers HTTP 200 with the reply it
computed, identical to the response with a succeeding persistence
call. -/
theorem chat_persistence_exception_swallowed (conversation_id message : String)
    (authorization : Option String) (ac : Except Unit AuthResp)
    (hd : Option (List MsgRecord)) (gen : Except Unit GenResult) (uid : String)
    (hok : get_user_id authorization ac = .ok uid)
    (hp : rolesPresent (hd.getD []) = true) :
    (chat conversation_id message authorization ac hd gen (.error ())).resp =
      .ok (computeReply gen) ∧
    (chat conversation_id message authorization ac hd gen (.error ())).resp =
      (chat conversation_id message authorization ac hd gen (.ok ())).resp := by
  rw [chat_run_eq conversation_id message authorization ac hd gen
    (.error ()) uid _ hok (chatPrompt_ok _ message hp),
    chat_run_eq conversation_id message authorization ac hd gen
    (.ok ()) uid _ hok (chatPrompt_ok _ message hp)]
  exact ⟨rfl, rfl⟩

theorem chat_persistence_exception_swallowed_witness :
    get_user_id (some ("Bearer t"))
      (.ok (AuthResp.objWithUser (some (UserRep.obj (some ("bob")))))) =
      .ok ("bob") ∧
    rolesPresent ((some [] : Option (List MsgRecord)).getD []) = true ∧
    (chat ("c1") ("hello") (some ("Bearer t"))
      (.ok (AuthResp.objWithUser (some (UserRep.obj (some ("bob"))))))
      (some []) (.ok ⟨some ("hi there"), none, ("raw")⟩) (.error ())).resp =
      .ok (computeReply (.ok ⟨some ("hi there"), none, ("raw")⟩)) ∧
    (chat ("c1") ("hello") (some ("Bearer t"))
      (.ok (AuthResp.objWithUser (some (UserRep.obj (some ("bob"))))))
      (some []) (.ok ⟨some ("hi there"), none, ("raw")⟩) (.error ())).resp =
    (chat ("c1") ("hello") (some ("Bearer t"))
      (.ok (AuthResp.objWithUser (some (UserRep.obj (some ("bob"))))))
      (some []) (.ok ⟨some ("hi there"), none, ("raw")⟩) (.ok ())).resp :=
  ⟨by decide, by decide,
    chat_persistence_exception_swallowed ("c1") ("hello") (some ("Bearer t"))
      (.ok (AuthResp.objWithUser (some (UserRep.obj (some ("bob"))))))
      (some []) (.ok ⟨some ("hi there"), none, ("raw")⟩) ("bob")
      (by decide) (by decide)⟩

/-- C6: a request to any protected route whose Authorization header is
absent or does not start case-insensitively with the bearer scheme and a
space is rejected with 401, and no identity, store or model collaborator
call is performed. -/
theorem protected_routes_401_no_calls (authorization : Option String)
    (hbad : pyStartsWith (pyLower (authorization.getD (""))) ("bearer ") = false)
    (conversation_id message : String) (ac : Except Unit AuthResp)
    (conv : ConvData) (msgs : Option (List MsgRecord))
    (hd : Option (List MsgRecord)) (gen : Except Unit GenResult)
    (ins : Except Unit Unit) (title : Option String) (ic : InsertConvData) :
    history conversation_id authorization ac conv msgs =
      ⟨.error ⟨401, "Missing bearer token"⟩, []⟩ ∧
    chat conversation_id message authorization ac hd gen ins =
      ⟨.error ⟨401, "Missing bearer token"⟩, [], false⟩ ∧
    start_conversation title authorization ac ic =
      ⟨.error ⟨401, "Missing bearer token"⟩, []⟩ := by
  have hh : header_ok authorization = false := by
    cases authorization with
    | none => rfl
    | some s =>
      simp only [Option.getD] at hbad
      simp [header_ok, hbad]
  refine ⟨?_, ?_, ?_⟩ <;>
    simp [history, chat, start_conversation, get_user_id, get_user_id_calls, hh]

theorem protected_routes_401_no_calls_witness :
    pyStartsWith (pyLower ((some ("Token abc") : Option String).getD (""))) ("bearer ") = false ∧
    (history ("c") (some ("Token abc")) (.error ()) ConvData.null none =
      ⟨.error ⟨401, "Missing bearer token"⟩, []⟩ ∧
    chat ("c") ("m") (some ("Token abc")) (.error ()) none (.error ()) (.error ()) =
      ⟨.error ⟨401, "Missing bearer token"⟩, [], false⟩ ∧
    start_conversation none (some ("Token abc")) (.error ()) InsertConvData.null =
      ⟨.error ⟨401, "Missing bearer token"⟩, []⟩) :=
  ⟨by decide,
    protected_routes_401_no_calls (some ("Token abc")) (by decide) ("c") ("m")
      (.error ()) ConvData.null none none (.error ()) (.error ()) none
      InsertConvData.null⟩

/-- C7: once the bearer header passes, every token-validation failure is
the single error 401 Invalid token: a collaborator exception, a missing
user object, and a missing id each map to it, and no error with any
other detail is ever surfaced by get_user_id. -/
theorem invalid_token_normalized (authorization : Option String)
    (ac : Except Unit AuthResp) (hok : header_ok authorization = true) :
    (ac = .error () →
      get_user_id authorization ac = .error ⟨401, "Invalid token"⟩) ∧
    (∀ resp, ac = .ok resp → resolveUser resp = .ok none →
      get_user_id authorization ac = .error ⟨401, "Invalid token"⟩) ∧
    (∀ resp u, ac = .ok resp → resolveUser resp = .ok (some u) →
      u.getId = none →
      get_user_id authorization ac = .error ⟨401, "Invalid token"⟩) ∧
    (∀ e, get_user_id authorization ac = .error e →
      e = ⟨401, "Invalid token"⟩) := by
  refine ⟨?_, ?_, ?_, ?_⟩
  · rintro rfl; simp [get_user_id, hok]
  · rintro resp rfl hres; simp [get_user_id, hok, hres]
  · rintro resp u rfl hres hid
    cases htr : u.truthy <;> simp [get_user_id, hok, hres, hid, htr]
  · intro e he
    rcases get_user_id_error_detail authorization ac hok with ⟨uid, h⟩ | h
    · rw [h] at he; exact Except.noConfusion he
    · rw [h] at he
      injection he with h2
      exact h2.symm

theorem invalid_token_normalized_witness :
    header_ok (some ("Bearer t")) = true ∧
    get_user_id (some ("Bearer t")) (.error ()) =
      .error ⟨401, "Invalid token"⟩ :=
  ⟨by decide,
    (invalid_token_normalized (some ("Bearer t")) (.error ()) (by decide)).1 rfl⟩

/-- C8: on a history whose records all expose a role, the assembled
prompt is the rendered last 8 records, in order, each as the
upper-cased role joined to the content, followed by the final USER line
with the stripped new message; the parts count is at most 9, and is
exactly 9 for a 10-record history. -/
theorem prompt_last8_shape (hist : List MsgRecord) (message : String)
    (hp : rolesPresent hist = true) :
    build_parts hist (pyStrip message) =
      .ok ((hist.drop (hist.length - 8)).map renderTotal ++
        ["USER: " ++ pyStrip message]) ∧
    chatPrompt hist message =
      .ok (joinNewline ((hist.drop (hist.length - 8)).map renderTotal ++
        ["USER: " ++ pyStrip message])) ∧
    ((hist.drop (hist.length - 8)).map renderTotal ++
      ["USER: " ++ pyStrip message]).length = min hist.length 8 + 1 ∧
    (hist.length = 10 →
      ((hist.drop (hist.length - 8)).map renderTotal ++
        ["USER: " ++ pyStrip message]).length = 9) := by
  refine ⟨build_parts_ok hist (pyStrip message) hp, chatPrompt_ok hist message hp, ?_, ?_⟩
  · simp only [List.length_append, List.length_map, List.length_drop,
      List.length_cons, List.length_nil]
    omega
  · intro h10
    simp only [List.length_append, List.length_map, List.length_drop,
      List.length_cons, List.length_nil, h10]

theorem prompt_last8_shape_witness :
    rolesPresent (List.replicate 10 (MsgRecord.dict (some ("user")) (some ("x")))) = true ∧
    (build_parts (List.replicate 10 (MsgRecord.dict (some ("user")) (some ("x")))) (pyStrip ("  hi  ")) =
      .ok (((List.replicate 10 (MsgRecord.dict (some ("user")) (some ("x")))).drop
          ((List.replicate 10 (MsgRecord.dict (some ("user")) (some ("x")))).length - 8)).map renderTotal ++
        ["USER: " ++ pyStrip ("  hi  ")]) ∧
    chatPrompt (List.replicate 10 (MsgRecord.dict (some ("user")) (some ("x")))) ("  hi  ") =
      .ok (joinNewline (((List.replicate 10 (MsgRecord.dict (some ("user")) (some ("x")))).drop
          ((List.replicate 10 (MsgRecord.dict (some ("user")) (some ("x")))).length - 8)).map renderTotal ++
        ["USER: " ++ pyStrip ("  hi  ")])) ∧
    (((List.replicate 10 (MsgRecord.dict (some ("user")) (some ("x")))).drop
        ((List.replicate 10 (MsgRecord.dict (some ("user")) (some ("x")))).length - 8)).map renderTotal ++
      ["USER: " ++ pyStrip ("  hi  ")]).length =
      min (List.replicate 10 (MsgRecord.dict (some ("user")) (some ("x")))).length 8 + 1 ∧
    ((List.replicate 10 (MsgRecord.dict (some ("user")) (some ("x")))).length = 10 →
      (((List.replicate 10 (MsgRecord.dict (some ("user")) (some ("x")))).drop
          ((List.replicate 10 (MsgRecord.dict (some ("user")) (some ("x")))).length - 8)).map renderTotal ++
        ["USER: " ++ pyStrip ("  hi  ")]).length = 9)) :=
  ⟨by decide,
    prompt_last8_shape (List.replicate 10 (MsgRecord.dict (some ("user")) (some ("x"))))
      ("  hi  ") (by decide)⟩

/-- C9: prompt assembly is deterministic: two invocations with equal
ordered histories and equal new messages produce byte-identical
prompts. -/
theorem prompt_deterministic (ha hb : List MsgRecord) (ma mb : String)
    (hh : ha = hb) (hm : ma = mb) : chatPrompt ha ma = chatPrompt hb mb := by
  rw [hh, hm]

theorem prompt_deterministic_witness :
    ([MsgRecord.dict (some ("user")) (some ("a"))] =
      [MsgRecord.dict (some ("user")) (some ("a"))]) ∧
    (("hi") : String) = ("hi") ∧
    chatPrompt [MsgRecord.dict (some ("user")) (some ("a"))] ("hi") =
      chatPrompt [MsgRecord.dict (some ("user")) (some ("a"))] ("hi") :=
  ⟨rfl, rfl,
    prompt_deterministic [MsgRecord.dict (some ("user")) (some ("a"))]
      [MsgRecord.dict (some ("user")) (some ("a"))] ("hi") ("hi") rfl rfl⟩

/-- C10: an authenticated chat request performs no read of the
conversations table at all, so no existence or ownership check on the
supplied conversation id happens, and the route answers HTTP 200 with
the computed reply for every store content. -/
theorem chat_no_ownership_check (conversation_id message : String)
    (authorization : Option String) (ac : Except Unit AuthResp)
    (hd : Option (List MsgRecord)) (gen : Except Unit GenResult)
    (ins : Except Unit Unit) (uid : String)
    (hok : get_user_id authorization ac = .ok uid)
    (hp : rolesPresent (hd.getD []) = true) :
    (chat conversation_id message authorization ac hd gen ins).resp =
      .ok (computeReply gen) ∧
    (chat conversation_id message authorization ac hd gen ins).calls.all
      (fun c => ! c.isSelectConversation) = true := by
  rw [chat_run_eq conversation_id message authorization ac hd gen
    ins uid _ hok (chatPrompt_ok _ message hp)]
  exact ⟨rfl, rfl⟩

theorem chat_no_ownership_check_witness :
    get_user_id (some ("Bearer t"))
      (.ok (AuthResp.objWithUser (some (UserRep.obj (some ("bob")))))) =
      .ok ("bob") ∧
    rolesPresent ((some [] : Option (List MsgRecord)).getD []) = true ∧
    (chat ("no-such-conversation") ("hello") (some ("Bearer t"))
      (.ok (AuthResp.objWithUser (some (UserRep.obj (some ("bob"))))))
      (some []) (.ok ⟨some ("hi"), none, ("raw")⟩) (.ok ())).resp =
      .ok (computeReply (.ok ⟨some ("hi"), none, ("raw")⟩)) ∧
    (chat ("no-such-conversation") ("hello") (some ("Bearer t"))
      (.ok (AuthResp.objWithUser (some (UserRep.obj (some ("bob"))))))
      (some []) (.ok ⟨some ("hi"), none, ("raw")⟩) (.ok ())).calls.all
      (fun c => ! c.isSelectConversation) = true :=
  ⟨by decide, by decide,
    chat_no_ownership_check ("no-such-conversation") ("hello")
      (some ("Bearer t"))
      (.ok (AuthResp.objWithUser (some (UserRep.obj (some ("bob"))))))
      (some []) (.ok ⟨some ("hi"), none, ("raw")⟩) (.ok ()) ("bob")
      (by decide) (by decide)⟩

end ChatService
